import Mathlib

/-!
Verification of the ECI payment service (`src/main.py`).

The development shallowly embeds the data model (Payment, Transaction,
IdempotencyKey rows, the global metrics dictionary) and the mutating
endpoint handlers (`charge_payment`, `create_payment`,
`update_payment_status`, `refund_payment`, `cancel_payment`) as pure
functions over an explicit database state.  Time (`datetime.utcnow`) is
passed in as a natural-number instant; the random generators for
transaction ids and references are passed in as oracle arguments.
`db.commit` points inside the charge handler that can fail are modelled
by an injected optional failure point: a failure at a point returns the
state as committed so far (SQLAlchemy commits are atomic; `db.rollback`
discards only uncommitted work) together with the 500 error the handler
raises.
-/

namespace PaymentSvc

/-- `PaymentStatus` enum of `main.py`. -/
inductive PaymentStatus where
  | PENDING
  | PROCESSING
  | COMPLETED
  | FAILED
  | REFUNDED
  | CANCELLED
deriving DecidableEq, Repr

/-- `PaymentMethod` enum of `main.py`. -/
inductive PaymentMethod where
  | CREDIT_CARD
  | DEBIT_CARD
  | UPI
  | NET_BANKING
  | WALLET
  | COD
deriving DecidableEq, Repr

/-- `TransactionType` enum of `main.py`. -/
inductive TransactionType where
  | PAYMENT
  | REFUND
deriving DecidableEq, Repr

/-- `.value` of the status enum (the string stored and logged). -/
def PaymentStatus.value : PaymentStatus → String
  | .PENDING => "PENDING"
  | .PROCESSING => "PROCESSING"
  | .COMPLETED => "COMPLETED"
  | .FAILED => "FAILED"
  | .REFUNDED => "REFUNDED"
  | .CANCELLED => "CANCELLED"

/-- `.value` of the method enum. -/
def PaymentMethod.value : PaymentMethod → String
  | .CREDIT_CARD => "CREDIT_CARD"
  | .DEBIT_CARD => "DEBIT_CARD"
  | .UPI => "UPI"
  | .NET_BANKING => "NET_BANKING"
  | .WALLET => "WALLET"
  | .COD => "COD"

/-- `.value` of the transaction-type enum. -/
def TransactionType.value : TransactionType → String
  | .PAYMENT => "PAYMENT"
  | .REFUND => "REFUND"

/-- A row of the `payments` table (`class Payment`).  Monetary amounts are
rationals (Python floats hold 2-decimal currency values here); instants are
naturals. -/
structure Payment where
  payment_id : Nat
  order_id : Int
  user_id : Int
  amount : ℚ
  currency : String
  payment_method : PaymentMethod
  status : PaymentStatus
  transaction_id : String
  reference : String
  authorization_code : Option String
  gateway_response : Option String
  created_at : Nat
  updated_at : Nat
  completed_at : Option Nat
  captured_at : Option Nat
deriving DecidableEq, Repr

/-- A row of the `transactions` table (`class Transaction`). -/
structure Txn where
  transaction_log_id : Nat
  payment_id : Nat
  transaction_type : TransactionType
  amount : ℚ
  status : PaymentStatus
  description : String
  created_at : Nat
deriving DecidableEq, Repr

/-- A row of the `idempotency_keys` table (`class IdempotencyKey`).
`response_body` is a nullable Text column, hence `Option String`. -/
structure IdempotencyKey where
  idempotency_key : String
  payment_id : Option Nat
  request_hash : String
  response_body : Option String
  status_code : Nat
  created_at : Nat
  expires_at : Nat
deriving DecidableEq, Repr

/-- The `payments_by_status` counter dictionary (one integer per enum value). -/
structure StatusCounts where
  pending : Int
  processing : Int
  completed : Int
  failed : Int
  refunded : Int
  cancelled : Int
deriving DecidableEq, Repr

/-- The `payments_by_method` counter dictionary. -/
structure MethodCounts where
  credit_card : Int
  debit_card : Int
  upi : Int
  net_banking : Int
  wallet : Int
  cod : Int
deriving DecidableEq, Repr

/-- The global `metrics` dictionary of `main.py`. -/
structure Metrics where
  payments_created_total : Nat
  payments_failed_total : Nat
  payments_by_status : StatusCounts
  payments_by_method : MethodCounts
  total_amount_processed : ℚ
  total_refunds : ℚ
  refunds_processed_total : Nat
  payment_processing_errors : Nat
deriving DecidableEq, Repr

/-- Add `d` to the counter for status `s` (`metrics[..][status.value] += d`). -/
def StatusCounts.bump (c : StatusCounts) (s : PaymentStatus) (d : Int) : StatusCounts :=
  match s with
  | .PENDING => { c with pending := c.pending + d }
  | .PROCESSING => { c with processing := c.processing + d }
  | .COMPLETED => { c with completed := c.completed + d }
  | .FAILED => { c with failed := c.failed + d }
  | .REFUNDED => { c with refunded := c.refunded + d }
  | .CANCELLED => { c with cancelled := c.cancelled + d }

/-- Add `d` to the counter for method `m`. -/
def MethodCounts.bump (c : MethodCounts) (m : PaymentMethod) (d : Int) : MethodCounts :=
  match m with
  | .CREDIT_CARD => { c with credit_card := c.credit_card + d }
  | .DEBIT_CARD => { c with debit_card := c.debit_card + d }
  | .UPI => { c with upi := c.upi + d }
  | .NET_BANKING => { c with net_banking := c.net_banking + d }
  | .WALLET => { c with wallet := c.wallet + d }
  | .COD => { c with cod := c.cod + d }

/-- The persistent state: the three tables, the autoincrement counters of the
two integer primary keys, and the global metrics dictionary. -/
structure DBState where
  payments : List Payment
  transactions : List Txn
  idemKeys : List IdempotencyKey
  nextPaymentId : Nat
  nextTxnLogId : Nat
  metrics : Metrics
deriving DecidableEq, Repr

/-- The request body of `POST /v1/payments/charge` and `POST /v1/payments`
(`class PaymentCreate`), before pydantic validation. -/
structure PaymentCreate where
  order_id : Int
  user_id : Int
  amount : ℚ
  currency : String
  payment_method : PaymentMethod
  reference : Option String
deriving DecidableEq, Repr

/-- Floor of a rational, computed on the reduced fraction (`fdiv` is the
flooring integer division). -/
def ratFloor (q : ℚ) : ℤ := q.num.fdiv q.den

/-- Round a rational to an integer with round-half-to-even tie-breaking,
the behaviour of Python's built-in `round`. -/
def roundHalfEven (q : ℚ) : ℤ :=
  let f : ℤ := ratFloor q
  if q - f < 1/2 then f
  else if (1:ℚ)/2 < q - f then f + 1
  else if f % 2 = 0 then f else f + 1

/-- `round(v, 2)` of the `validate_amount` validator. -/
def round2 (q : ℚ) : ℚ := (roundHalfEven (q * 100) : ℚ) / 100

/-- The `validate_amount` pydantic validator: rejects non-positive amounts and
amounts above 100000, and rounds an accepted amount to 2 decimals. -/
def validate_amount (v : ℚ) : Option ℚ :=
  if v ≤ 0 then none
  else if 100000 < v then none
  else some (round2 v)

/-- Pydantic validation of a `PaymentCreate` body: the `Field` constraints
(`order_id > 0`, `user_id > 0`, `amount > 0`, `currency` at most 3 chars,
`reference` at most 100 chars) and the `validate_amount` validator.  `none`
models the 422 response produced before the handler body runs. -/
def validatePaymentCreate (r : PaymentCreate) : Option PaymentCreate :=
  if r.order_id ≤ 0 then none
  else if r.user_id ≤ 0 then none
  else if 3 < r.currency.length then none
  else if (match r.reference with | none => false | some s => 100 < s.length) then none
  else match validate_amount r.amount with
    | none => none
    | some a => some { r with amount := a }

/-- Validation of a `RefundRequest` body: optional `amount` with `gt=0`,
`reason` with `min_length=5`. -/
def validRefundRequest (amount : Option ℚ) (reason : String) : Bool :=
  (match amount with | none => true | some a => decide (0 < a)) &&
  decide (5 ≤ reason.length)

/-- Observable outcome of a handler call: a 2xx response with a serialized
body, an `HTTPException` with a status code and detail, or a pydantic 422. -/
inductive ApiResult where
  | ok (status_code : Nat) (body : String)
  | httpError (status_code : Nat) (detail : String)
  | validationError
deriving DecidableEq, Repr

/-- Whether the outcome is a 2xx response. -/
def ApiResult.isOk : ApiResult → Bool
  | .ok _ _ => true
  | _ => false

/-- `datetime.isoformat` on the modelled instant. -/
def isoformat (n : Nat) : String := toString n

/-- Render an optional string field (`null` for Python `None`). -/
def optStr : Option String → String
  | none => "null"
  | some s => s

/-- Render an optional timestamp field. -/
def optTime : Option Nat → String
  | none => "null"
  | some n => isoformat n

/-- Serialization of one transaction dictionary inside `payment_to_dict`,
parametrized by the JSON separators: `item` between entries and `kv` between a
key and its value (Python's `json.dumps(..., separators=(item, kv))`). -/
def renderTxnSep (item kv : String) (t : Txn) : String :=
  "transaction_log_id" ++ kv ++ toString t.transaction_log_id ++
  item ++ "transaction_type" ++ kv ++ t.transaction_type.value ++
  item ++ "amount" ++ kv ++ toString t.amount ++
  item ++ "status" ++ kv ++ t.status.value ++
  item ++ "description" ++ kv ++ t.description ++
  item ++ "created_at" ++ kv ++ isoformat t.created_at

/-- Serialization of `payment_to_dict(payment)` with explicit JSON separators,
field for field.  Two different encoders serialize this dictionary in the
source: FastAPI's `response_model`/`JSONResponse` encoder with compact
separators writes the first response to the wire, while `json.dumps` with its
default separators produces the string cached in the idempotency record —
same content, different separator bytes. -/
def renderPaymentSep (item kv : String) (p : Payment) (txns : List Txn) : String :=
  "payment_id" ++ kv ++ toString p.payment_id ++
  item ++ "order_id" ++ kv ++ toString p.order_id ++
  item ++ "user_id" ++ kv ++ toString p.user_id ++
  item ++ "amount" ++ kv ++ toString p.amount ++
  item ++ "currency" ++ kv ++ p.currency ++
  item ++ "payment_method" ++ kv ++ p.payment_method.value ++
  item ++ "status" ++ kv ++ p.status.value ++
  item ++ "transaction_id" ++ kv ++ p.transaction_id ++
  item ++ "reference" ++ kv ++ p.reference ++
  item ++ "authorization_code" ++ kv ++ optStr p.authorization_code ++
  item ++ "gateway_response" ++ kv ++ optStr p.gateway_response ++
  item ++ "created_at" ++ kv ++ isoformat p.created_at ++
  item ++ "updated_at" ++ kv ++ isoformat p.updated_at ++
  item ++ "completed_at" ++ kv ++ optTime p.completed_at ++
  item ++ "captured_at" ++ kv ++ optTime p.captured_at ++
  item ++ "transactions" ++ kv ++ "[" ++
    String.intercalate item (txns.map (renderTxnSep item kv)) ++ "]"

/-- The wire body of a 2xx response returned as a dict through
`response_model`: Starlette's `JSONResponse` renders with the compact
separators `(",", ":")`. -/
def renderPayment (p : Payment) (txns : List Txn) : String :=
  renderPaymentSep "," ":" p txns

/-- `json.dumps(response_data)` (line 468): the default separators are
`(", ", ": ")`, one space wider than the compact wire encoding. -/
def renderPaymentCached (p : Payment) (txns : List Txn) : String :=
  renderPaymentSep ", " ": " p txns

/-- `compute_request_hash`: models the SHA-256 digest of the sorted-key JSON
dump of the request body by the canonical rendering itself (the digest is
stored but never compared by the code, so no collision property is used). -/
def compute_request_hash (r : PaymentCreate) : String :=
  "amount=" ++ toString r.amount ++
  ",currency=" ++ r.currency ++
  ",order_id=" ++ toString r.order_id ++
  ",payment_method=" ++ r.payment_method.value ++
  ",reference=" ++ optStr r.reference ++
  ",user_id=" ++ toString r.user_id

/-- The transactions belonging to a payment (the `transactions` relationship). -/
def transactionsOf (st : DBState) (pid : Nat) : List Txn :=
  st.transactions.filter (fun t => t.payment_id = pid)

/-- `db.query(Payment).filter(Payment.payment_id == pid).first()`. -/
def findPayment (st : DBState) (pid : Nat) : Option Payment :=
  st.payments.find? (fun p => p.payment_id = pid)

/-- `db.query(Payment).filter(Payment.order_id == oid).first()`. -/
def findByOrder (st : DBState) (oid : Int) : Option Payment :=
  st.payments.find? (fun p => p.order_id = oid)

/-- `db.query(IdempotencyKey).filter(..idempotency_key == key).first()`. -/
def lookupIdem (st : DBState) (key : String) : Option IdempotencyKey :=
  st.idemKeys.find? (fun r => r.idempotency_key = key)

/-- Write back a mutated ORM object: every row with this primary key takes the
new value. -/
def updatePayment (ps : List Payment) (pid : Nat) (p : Payment) : List Payment :=
  ps.map (fun q => if q.payment_id = pid then p else q)

/-- `log_transaction`: append a transaction row and commit. -/
def log_transaction (st : DBState) (payment_id : Nat) (ty : TransactionType)
    (amount : ℚ) (status : PaymentStatus) (description : String) (now : Nat) : DBState :=
  { st with
    transactions := st.transactions ++
      [{ transaction_log_id := st.nextTxnLogId
         payment_id := payment_id
         transaction_type := ty
         amount := amount
         status := status
         description := description
         created_at := now }]
    nextTxnLogId := st.nextTxnLogId + 1 }

/-- The `db.commit` sites of the charge handler at which an injected failure
may occur: the payment insert (line 435), the first `log_transaction` commit
(line 439), the completion update commit (line 450), the second
`log_transaction` commit (line 454), and the idempotency-record insert commit
(line 481). -/
inductive FailPoint where
  | paymentCommit
  | initialTxnCommit
  | completionCommit
  | completionTxnCommit
  | idempotencyCommit
deriving DecidableEq, Repr

/-- The generic `except Exception` branch of the charge handler: rollback of
uncommitted work, failure counters, and a 500 response.  (The inventory
release it schedules is a fire-and-forget network call with no effect on
this state.) -/
def failCharge (st : DBState) : ApiResult × DBState :=
  (ApiResult.httpError 500 "Failed to charge payment",
   { st with metrics :=
      { st.metrics with
        payments_failed_total := st.metrics.payments_failed_total + 1
        payment_processing_errors := st.metrics.payment_processing_errors + 1 } })

/-- Truthiness of the nullable `response_body` column
(`if existing_idempotency.response_body:`): `None` and the empty string are
falsy. -/
def hasBody : Option String → Bool
  | none => false
  | some s => !(s = "")

/-- The `PROCESSING` payment row built and committed by the charge handler
(lines 423-435).  The reference falls back to the generated one when the
client supplied none or an empty string (`payment_data.reference or
generate_reference()`). -/
def newChargePayment (st : DBState) (v : PaymentCreate) (txnId ref : String)
    (now : Nat) : Payment :=
  { payment_id := st.nextPaymentId
    order_id := v.order_id
    user_id := v.user_id
    amount := v.amount
    currency := v.currency
    payment_method := v.payment_method
    status := PaymentStatus.PROCESSING
    transaction_id := txnId
    reference := match v.reference with
      | none => ref
      | some s => if s = "" then ref else s
    authorization_code := none
    gateway_response := none
    created_at := now
    updated_at := now
    completed_at := none
    captured_at := none }

/-- The simulated gateway success (lines 447-450): status to `COMPLETED`,
`completed_at` stamped, gateway response text set, `updated_at` bumped by the
`onupdate` hook. -/
def completeChargePayment (p : Payment) (now : Nat) : Payment :=
  { p with
    status := PaymentStatus.COMPLETED
    completed_at := some now
    gateway_response := some "Payment processed successfully"
    updated_at := now }

/-- The body of `charge_payment` from the order-uniqueness check (line 410)
onward, reached after the idempotency lookup has not replayed.  `txnId` and
`ref` are the outputs of `generate_transaction_id` / `generate_reference`;
`failAt` injects a failure at one of the commit sites.  The idempotency-record
insert also fails, through the same `except` branch, when a row with this key
still exists (the column is declared `unique=True`). -/
def chargeCore (st : DBState) (v : PaymentCreate) (idempotency_key : String)
    (txnId ref : String) (now : Nat) (failAt : Option FailPoint) : ApiResult × DBState :=
  match findByOrder st v.order_id with
  | some _ =>
    (ApiResult.httpError 400
      ("Payment for order_id " ++ toString v.order_id ++ " already exists"), st)
  | none =>
    if failAt = some FailPoint.paymentCommit then failCharge st
    else
      let payment := newChargePayment st v txnId ref now
      let st1 := { st with
        payments := st.payments ++ [payment]
        nextPaymentId := st.nextPaymentId + 1 }
      if failAt = some FailPoint.initialTxnCommit then failCharge st1
      else
        let st2 := log_transaction st1 payment.payment_id TransactionType.PAYMENT
          payment.amount PaymentStatus.PROCESSING
          ("Payment charge initiated via " ++ v.payment_method.value) now
        if failAt = some FailPoint.completionCommit then failCharge st2
        else
          let completed := completeChargePayment payment now
          let st3 := { st2 with
            payments := updatePayment st2.payments payment.payment_id completed }
          if failAt = some FailPoint.completionTxnCommit then failCharge st3
          else
            let st4 := log_transaction st3 payment.payment_id TransactionType.PAYMENT
              completed.amount PaymentStatus.COMPLETED
              "Payment completed successfully" now
            let st5 := { st4 with metrics :=
              { st4.metrics with
                payments_created_total := st4.metrics.payments_created_total + 1
                payments_by_status :=
                  st4.metrics.payments_by_status.bump PaymentStatus.COMPLETED 1
                payments_by_method :=
                  st4.metrics.payments_by_method.bump v.payment_method 1
                total_amount_processed :=
                  st4.metrics.total_amount_processed + completed.amount } }
            let response_json :=
              renderPaymentCached completed (transactionsOf st5 completed.payment_id)
            if failAt = some FailPoint.idempotencyCommit ∨ (lookupIdem st5 idempotency_key).isSome
            then failCharge st5
            else
              let record : IdempotencyKey :=
                { idempotency_key := idempotency_key
                  payment_id := some completed.payment_id
                  request_hash := compute_request_hash v
                  response_body := some response_json
                  status_code := 201
                  created_at := now
                  expires_at := now + 86400 }
              (ApiResult.ok 201
                (renderPayment completed (transactionsOf st5 completed.payment_id)),
               { st5 with idemKeys := st5.idemKeys ++ [record] })

/-- `POST /v1/payments/charge` (`charge_payment`): pydantic validation, the
idempotency lookup with lazy expiry and verbatim replay, then `chargeCore`. -/
def charge (st : DBState) (raw : PaymentCreate) (idempotency_key : String)
    (txnId ref : String) (now : Nat) (failAt : Option FailPoint) : ApiResult × DBState :=
  match validatePaymentCreate raw with
  | none => (ApiResult.validationError, st)
  | some v =>
    match lookupIdem st idempotency_key with
    | some record =>
      if record.expires_at < now then
        chargeCore
          { st with idemKeys :=
              st.idemKeys.eraseP (fun r => r.idempotency_key = idempotency_key) }
          v idempotency_key txnId ref now failAt
      else if hasBody record.response_body then
        (ApiResult.ok record.status_code (record.response_body.getD ""), st)
      else
        chargeCore st v idempotency_key txnId ref now failAt
    | none => chargeCore st v idempotency_key txnId ref now failAt

/-- `POST /v1/payments` (`create_payment`), the legacy non-idempotent create:
validation, order-uniqueness check, a `PENDING` payment, one transaction,
creation metrics. -/
def create_payment (st : DBState) (raw : PaymentCreate) (txnId ref : String)
    (now : Nat) : ApiResult × DBState :=
  match validatePaymentCreate raw with
  | none => (ApiResult.validationError, st)
  | some v =>
    match findByOrder st v.order_id with
    | some _ =>
      (ApiResult.httpError 400
        ("Payment for order_id " ++ toString v.order_id ++ " already exists"), st)
    | none =>
      let payment := { newChargePayment st v txnId ref now with
        status := PaymentStatus.PENDING }
      let st1 := { st with
        payments := st.payments ++ [payment]
        nextPaymentId := st.nextPaymentId + 1 }
      let st2 := log_transaction st1 payment.payment_id TransactionType.PAYMENT
        payment.amount PaymentStatus.PENDING
        ("Payment initiated via " ++ v.payment_method.value) now
      let st3 := { st2 with metrics :=
        { st2.metrics with
          payments_created_total := st2.metrics.payments_created_total + 1
          payments_by_status :=
            st2.metrics.payments_by_status.bump PaymentStatus.PENDING 1
          payments_by_method :=
            st2.metrics.payments_by_method.bump v.payment_method 1 } }
      (ApiResult.ok 201
        (renderPayment payment (transactionsOf st3 payment.payment_id)), st3)

/-- `PATCH /v1/payments/pid/status` (`update_payment_status`): guards on the
current status, mutation, `completed_at` stamping and volume accrual on first
entry into `COMPLETED`, failure counter, transaction log, by-status counters. -/
def update_payment_status (st : DBState) (payment_id : Nat)
    (status : PaymentStatus) (gateway_response : Option String) (now : Nat) :
    ApiResult × DBState :=
  match findPayment st payment_id with
  | none =>
    (ApiResult.httpError 404 ("Payment " ++ toString payment_id ++ " not found"), st)
  | some payment =>
    if payment.status = PaymentStatus.COMPLETED ∧ status ≠ PaymentStatus.REFUNDED then
      (ApiResult.httpError 400
        "Cannot change status of completed payment (use refund endpoint)", st)
    else if payment.status = PaymentStatus.REFUNDED then
      (ApiResult.httpError 400 "Cannot change status of refunded payment", st)
    else
      let old_status := payment.status
      let p1 := { payment with
        status := status
        updated_at := now
        gateway_response := match gateway_response with
          | none => payment.gateway_response
          | some g => if g = "" then payment.gateway_response else some g }
      let firstCompletion :=
        status = PaymentStatus.COMPLETED ∧ payment.completed_at = none
      let p2 := if firstCompletion then { p1 with completed_at := some now } else p1
      let m1 := if firstCompletion then
          { st.metrics with total_amount_processed :=
              st.metrics.total_amount_processed + payment.amount }
        else st.metrics
      let m2 := if status = PaymentStatus.FAILED then
          { m1 with payments_failed_total := m1.payments_failed_total + 1 }
        else m1
      let st1 := { st with
        payments := updatePayment st.payments payment_id p2
        metrics := m2 }
      let st2 := log_transaction st1 payment_id TransactionType.PAYMENT
        payment.amount status
        ("Status changed from " ++ old_status.value ++ " to " ++ status.value) now
      let st3 := { st2 with metrics :=
        { st2.metrics with payments_by_status :=
            (st2.metrics.payments_by_status.bump old_status (-1)).bump status 1 } }
      (ApiResult.ok 200 (renderPayment p2 (transactionsOf st3 payment_id)), st3)

/-- `POST /v1/payments/pid/refund` (`refund_payment`): request validation,
status guard (`COMPLETED` only), default-to-full refund amount with the
over-refund guard, mutation to `REFUNDED`, `REFUND` transaction, refund
metrics. -/
def refund_payment (st : DBState) (payment_id : Nat) (amount : Option ℚ)
    (reason : String) (now : Nat) : ApiResult × DBState :=
  if ¬ validRefundRequest amount reason then (ApiResult.validationError, st)
  else match findPayment st payment_id with
  | none =>
    (ApiResult.httpError 404 ("Payment " ++ toString payment_id ++ " not found"), st)
  | some payment =>
    if payment.status ≠ PaymentStatus.COMPLETED then
      (ApiResult.httpError 400
        ("Cannot refund payment with status: " ++ payment.status.value), st)
    else
      let refund_amount := match amount with
        | none => payment.amount
        | some a => if a = 0 then payment.amount else a
      if payment.amount < refund_amount then
        (ApiResult.httpError 400 "Refund amount cannot exceed payment amount", st)
      else
        let p1 := { payment with
          status := PaymentStatus.REFUNDED
          updated_at := now
          gateway_response := some ("Refund: " ++ reason) }
        let st1 := { st with payments := updatePayment st.payments payment_id p1 }
        let st2 := log_transaction st1 payment_id TransactionType.REFUND
          refund_amount PaymentStatus.REFUNDED
          ("Refund of " ++ toString refund_amount ++ " " ++ payment.currency ++
            ": " ++ reason) now
        let st3 := { st2 with metrics :=
          { st2.metrics with
            payments_by_status :=
              ((st2.metrics.payments_by_status.bump PaymentStatus.COMPLETED (-1)).bump
                PaymentStatus.REFUNDED 1)
            total_refunds := st2.metrics.total_refunds + refund_amount
            refunds_processed_total := st2.metrics.refunds_processed_total + 1 } }
        (ApiResult.ok 200 (renderPayment p1 (transactionsOf st3 payment_id)), st3)

/-- `DELETE /v1/payments/pid` (`cancel_payment`): guard on `COMPLETED` /
`REFUNDED`, mutation to `CANCELLED`, transaction log, by-status counters. -/
def cancel_payment (st : DBState) (payment_id : Nat) (now : Nat) :
    ApiResult × DBState :=
  match findPayment st payment_id with
  | none =>
    (ApiResult.httpError 404 ("Payment " ++ toString payment_id ++ " not found"), st)
  | some payment =>
    if payment.status = PaymentStatus.COMPLETED ∨
       payment.status = PaymentStatus.REFUNDED then
      (ApiResult.httpError 400
        ("Cannot cancel payment with status: " ++ payment.status.value), st)
    else
      let old_status := payment.status
      let p1 := { payment with
        status := PaymentStatus.CANCELLED
        updated_at := now }
      let st1 := { st with payments := updatePayment st.payments payment_id p1 }
      let st2 := log_transaction st1 payment_id TransactionType.PAYMENT
        payment.amount PaymentStatus.CANCELLED "Payment cancelled by user" now
      let st3 := { st2 with metrics :=
        { st2.metrics with payments_by_status :=
            ((st2.metrics.payments_by_status.bump old_status (-1)).bump
              PaymentStatus.CANCELLED 1) } }
      (ApiResult.ok 200 (renderPayment p1 (transactionsOf st3 payment_id)), st3)

/-! Concrete fixtures used to instantiate the theorems. -/

/-- All-zero by-status counters, the initial value of `payments_by_status`. -/
def initStatusCounts : StatusCounts := ⟨0, 0, 0, 0, 0, 0⟩

/-- All-zero by-method counters. -/
def initMethodCounts : MethodCounts := ⟨0, 0, 0, 0, 0, 0⟩

/-- The metrics dictionary as initialised at module load. -/
def initMetrics : Metrics := ⟨0, 0, initStatusCounts, initMethodCounts, 0, 0, 0, 0⟩

/-- A freshly created database: empty tables, autoincrement counters at 1. -/
def emptyState : DBState := ⟨[], [], [], 1, 1, initMetrics⟩

/-- The charge request of the spec scenario: order 501, amount 100.00 INR, UPI. -/
def sampleRequest : PaymentCreate :=
  { order_id := 501, user_id := 1, amount := 100, currency := "INR",
    payment_method := PaymentMethod.UPI, reference := none }

/-- A stored payment row with a chosen status, used to drive the state machine
endpoints. -/
def samplePayment (s : PaymentStatus) : Payment :=
  { payment_id := 1, order_id := 501, user_id := 1, amount := 100,
    currency := "INR", payment_method := PaymentMethod.UPI, status := s,
    transaction_id := "TXN1", reference := "REF1", authorization_code := none,
    gateway_response := none, created_at := 0, updated_at := 0,
    completed_at := none, captured_at := none }

/-- A database holding exactly one payment with the chosen status. -/
def sampleState (s : PaymentStatus) : DBState :=
  ⟨[samplePayment s], [], [], 2, 1, initMetrics⟩

/-- A database holding a single unexpired idempotency record whose
`response_body` is the empty string, and nothing else. -/
def stEmptyBody : DBState :=
  ⟨[], [],
   [{ idempotency_key := "k1", payment_id := none, request_hash := "h",
      response_body := some "", status_code := 201, created_at := 0,
      expires_at := 100 }],
   1, 1, initMetrics⟩

/-! Well-formedness invariants of a database state. -/

/-- Primary-key freshness: every stored payment id, and every payment id a
transaction row refers to, is below the autoincrement counter (guaranteed by
the serial primary key and the foreign key). -/
def idsFresh (st : DBState) : Prop :=
  (∀ p ∈ st.payments, p.payment_id < st.nextPaymentId) ∧
  (∀ t ∈ st.transactions, t.payment_id < st.nextPaymentId)

/-- The `order_id` uniqueness constraint: pairwise distinct order ids. -/
def ordersUnique (ps : List Payment) : Prop :=
  ps.Pairwise (fun a b => a.order_id ≠ b.order_id)

/-! Named forms of the rows a successful charge commits (read off the success
path of `chargeCore`), so that theorems can speak about them compactly. -/

/-- The initiation transaction row logged at line 439. -/
def chargeTxn1 (st : DBState) (v : PaymentCreate) (now : Nat) : Txn :=
  { transaction_log_id := st.nextTxnLogId
    payment_id := st.nextPaymentId
    transaction_type := TransactionType.PAYMENT
    amount := v.amount
    status := PaymentStatus.PROCESSING
    description := "Payment charge initiated via " ++ v.payment_method.value
    created_at := now }

/-- The completion transaction row logged at line 454. -/
def chargeTxn2 (st : DBState) (v : PaymentCreate) (now : Nat) : Txn :=
  { transaction_log_id := st.nextTxnLogId + 1
    payment_id := st.nextPaymentId
    transaction_type := TransactionType.PAYMENT
    amount := v.amount
    status := PaymentStatus.COMPLETED
    description := "Payment completed successfully"
    created_at := now }

/-- The wire body of a successful charge's first response (compact encoder). -/
def chargeBody (st : DBState) (v : PaymentCreate) (txnId ref : String)
    (now : Nat) : String :=
  renderPayment (completeChargePayment (newChargePayment st v txnId ref now) now)
    [chargeTxn1 st v now, chargeTxn2 st v now]

/-- The `json.dumps` body a successful charge caches in the idempotency
record — the same response data as `chargeBody`, rendered with the default
separators. -/
def chargeCachedBody (st : DBState) (v : PaymentCreate) (txnId ref : String)
    (now : Nat) : String :=
  renderPaymentCached (completeChargePayment (newChargePayment st v txnId ref now) now)
    [chargeTxn1 st v now, chargeTxn2 st v now]

/-- The idempotency record a successful charge stores (lines 471-479). -/
def chargeRecord (st : DBState) (v : PaymentCreate) (key txnId ref : String)
    (now : Nat) : IdempotencyKey :=
  { idempotency_key := key
    payment_id := some st.nextPaymentId
    request_hash := compute_request_hash v
    response_body := some (chargeCachedBody st v txnId ref now)
    status_code := 201
    created_at := now
    expires_at := now + 86400 }

/-- The database state after a successful charge. -/
def chargeSuccessState (st : DBState) (v : PaymentCreate) (key txnId ref : String)
    (now : Nat) : DBState :=
  { payments := st.payments ++
      [completeChargePayment (newChargePayment st v txnId ref now) now]
    transactions := st.transactions ++ [chargeTxn1 st v now, chargeTxn2 st v now]
    idemKeys := st.idemKeys ++ [chargeRecord st v key txnId ref now]
    nextPaymentId := st.nextPaymentId + 1
    nextTxnLogId := st.nextTxnLogId + 2
    metrics := { st.metrics with
      payments_created_total := st.metrics.payments_created_total + 1
      payments_by_status := st.metrics.payments_by_status.bump PaymentStatus.COMPLETED 1
      payments_by_method := st.metrics.payments_by_method.bump v.payment_method 1
      total_amount_processed := st.metrics.total_amount_processed + v.amount } }

/-! Helper lemmas. -/

theorem updatePayment_append (ps : List Payment) (payment p' : Payment)
    (h : ∀ q ∈ ps, q.payment_id ≠ payment.payment_id) :
    updatePayment (ps ++ [payment]) payment.payment_id p' = ps ++ [p'] := by
  unfold updatePayment
  rw [List.map_append]
  congr 1
  · conv_rhs => rw [show ps = ps.map id from (List.map_id ps).symm]
    exact List.map_congr_left fun q hq => by simp [h q hq]
  · simp

theorem filter_fresh_nil (ts : List Txn) (n : Nat)
    (h : ∀ t ∈ ts, t.payment_id < n) :
    ts.filter (fun t => t.payment_id = n) = [] := by
  rw [List.filter_eq_nil_iff]
  intro t ht
  have := h t ht
  simp
  omega

theorem newChargePayment_pid (st : DBState) (v : PaymentCreate) (t r : String)
    (n : Nat) : (newChargePayment st v t r n).payment_id = st.nextPaymentId := rfl

theorem renderPaymentSep_ne_empty (item kv : String) (p : Payment)
    (ts : List Txn) : renderPaymentSep item kv p ts ≠ "" := by
  unfold renderPaymentSep
  intro h
  have hl := congrArg String.length h
  rw [show ("" : String).length = 0 from rfl] at hl
  simp only [String.length_append] at hl
  have h10 : ("payment_id" : String).length = 10 := rfl
  omega

theorem renderPaymentCached_ne_empty (p : Payment) (ts : List Txn) :
    renderPaymentCached p ts ≠ "" :=
  renderPaymentSep_ne_empty ", " ": " p ts

/-- A successful charge (no replay, free order id, no injected failure)
returns 201 with the serialized body and commits exactly the success-path
rows. -/
theorem charge_success (st : DBState) (raw v : PaymentCreate)
    (key txnId ref : String) (now : Nat)
    (hv : validatePaymentCreate raw = some v)
    (hkey : lookupIdem st key = none)
    (horder : findByOrder st v.order_id = none)
    (hfresh : idsFresh st) :
    charge st raw key txnId ref now none =
      (ApiResult.ok 201 (chargeBody st v txnId ref now),
       chargeSuccessState st v key txnId ref now) := by
  have hupd : updatePayment (st.payments ++ [newChargePayment st v txnId ref now])
      (newChargePayment st v txnId ref now).payment_id
      (completeChargePayment (newChargePayment st v txnId ref now) now) =
      st.payments ++ [completeChargePayment (newChargePayment st v txnId ref now) now] :=
    updatePayment_append st.payments (newChargePayment st v txnId ref now)
      (completeChargePayment (newChargePayment st v txnId ref now) now)
      (fun q hq => by
        have := hfresh.1 q hq
        rw [newChargePayment_pid]
        omega)
  have hno : ¬ ∃ x ∈ st.idemKeys, x.idempotency_key = key := by
    rw [lookupIdem, List.find?_eq_none] at hkey
    simpa using hkey
  simp only [charge, hv, hkey, chargeCore, horder, log_transaction]
  simp only [newChargePayment_pid] at hupd ⊢
  simp only [hupd]
  simp only [transactionsOf, lookupIdem, List.filter_append]
  simp [hno, filter_fresh_nil st.transactions st.nextPaymentId hfresh.2,
    chargeSuccessState, chargeBody, chargeCachedBody, renderPayment,
    renderPaymentCached, chargeTxn1, chargeTxn2, chargeRecord,
    completeChargePayment, newChargePayment, List.append_assoc, Nat.add_assoc]

/-- A fresh stored record with a non-empty body is replayed verbatim with no
state change, for any request body and any injected failure. -/
theorem charge_replay (st : DBState) (raw v : PaymentCreate) (key t r : String)
    (now : Nat) (failAt : Option FailPoint) (rec : IdempotencyKey)
    (hv : validatePaymentCreate raw = some v)
    (hl : lookupIdem st key = some rec)
    (hexp : ¬ rec.expires_at < now)
    (hb : hasBody rec.response_body = true) :
    charge st raw key t r now failAt =
      (ApiResult.ok rec.status_code (rec.response_body.getD ""), st) := by
  simp only [charge, hv, hl]
  rw [if_neg hexp]
  simp [hb]

/-- The sample request passes validation unchanged (its amount 100 is already
at 2-decimal precision). -/
theorem validate_sampleRequest :
    validatePaymentCreate sampleRequest = some sampleRequest := by
  unfold validatePaymentCreate validate_amount sampleRequest
  norm_num
  refine ⟨by decide, ?_⟩
  unfold round2 roundHalfEven ratFloor
  norm_num

/-! The claims. -/

/-- C1 counterexample: the first response of a successful charge is the
compact wire rendering of the response data, while the replayed second
response is the cached `json.dumps` rendering with default separators — same
201 status code and same content, but the two bodies are different byte
strings, refuting "the second request's response is byte-identical to the
first". -/
theorem charge_replay_not_byte_identical_counterexample :
    (charge emptyState sampleRequest "k1" "TXN1" "REF1" 0 none).1 =
      ApiResult.ok 201 (chargeBody emptyState sampleRequest "TXN1" "REF1" 0) ∧
    (charge (charge emptyState sampleRequest "k1" "TXN1" "REF1" 0 none).2
        sampleRequest "k1" "TXN2" "REF2" 10 none).1 =
      ApiResult.ok 201 (chargeCachedBody emptyState sampleRequest "TXN1" "REF1" 0) ∧
    chargeBody emptyState sampleRequest "TXN1" "REF1" 0 ≠
      chargeCachedBody emptyState sampleRequest "TXN1" "REF1" 0 := by
  have h1 := charge_success emptyState sampleRequest sampleRequest "k1" "TXN1"
    "REF1" 0 validate_sampleRequest rfl rfl (by constructor <;> simp [emptyState])
  refine ⟨by rw [h1], ?_, by decide⟩
  rw [h1]
  have hl : lookupIdem (chargeSuccessState emptyState sampleRequest "k1" "TXN1"
      "REF1" 0) "k1" =
      some (chargeRecord emptyState sampleRequest "k1" "TXN1" "REF1" 0) := by
    simp [chargeSuccessState, lookupIdem, emptyState, chargeRecord]
  rw [charge_replay _ sampleRequest sampleRequest "k1" "TXN2" "REF2" 10 none _
    validate_sampleRequest hl (by decide)
    (by simp [chargeRecord, hasBody, chargeCachedBody,
      renderPaymentCached_ne_empty])]
  simp [chargeRecord]

/-- C1 (amended): for a pair of charge requests presented with the same
idempotency key, where the first succeeds and the second arrives while the
stored record is fresh, the second request is answered from the cache without
touching the database — no second Payment is created — with the same 201
status code and the stored `json.dumps` serialization of the first response's
data: the identical content to the first response's body, but rendered with
the default separators instead of the compact wire encoder, hence not
byte-identical; this holds for any valid second request body and any injected
failure. -/
theorem charge_second_request_replays_cached
    (st : DBState) (raw raw2 v v2 : PaymentCreate)
    (key txnId ref txnId2 ref2 : String) (now now2 : Nat)
    (failAt2 : Option FailPoint)
    (hv : validatePaymentCreate raw = some v)
    (hv2 : validatePaymentCreate raw2 = some v2)
    (hkey : lookupIdem st key = none)
    (horder : findByOrder st v.order_id = none)
    (hfresh : idsFresh st)
    (hnow2 : now2 < now + 86400) :
    charge st raw key txnId ref now none =
      (ApiResult.ok 201 (chargeBody st v txnId ref now),
       chargeSuccessState st v key txnId ref now) ∧
    charge (chargeSuccessState st v key txnId ref now) raw2 key txnId2 ref2
        now2 failAt2 =
      (ApiResult.ok 201 (chargeCachedBody st v txnId ref now),
       chargeSuccessState st v key txnId ref now) ∧
    chargeBody st v txnId ref now =
      renderPaymentSep "," ":"
        (completeChargePayment (newChargePayment st v txnId ref now) now)
        [chargeTxn1 st v now, chargeTxn2 st v now] ∧
    chargeCachedBody st v txnId ref now =
      renderPaymentSep ", " ": "
        (completeChargePayment (newChargePayment st v txnId ref now) now)
        [chargeTxn1 st v now, chargeTxn2 st v now] := by
  refine ⟨charge_success st raw v key txnId ref now hv hkey horder hfresh,
    ?_, rfl, rfl⟩
  have hl : lookupIdem (chargeSuccessState st v key txnId ref now) key =
      some (chargeRecord st v key txnId ref now) := by
    simp only [chargeSuccessState, lookupIdem, List.find?_append]
    rw [show List.find? (fun r => decide (r.idempotency_key = key)) st.idemKeys =
      none from hkey]
    simp [chargeRecord]
  rw [charge_replay _ raw2 v2 key txnId2 ref2 now2 failAt2 _ hv2 hl
    (by simp only [chargeRecord]; omega)
    (by simp [chargeRecord, hasBody, chargeCachedBody,
      renderPaymentCached_ne_empty])]
  simp [chargeRecord]

/-- C1 witness: the scenario of the spec — charge order 501 for 100.00 INR via
UPI under key k1, then repeat with a fresh key k1 10 seconds later: the second
request replays the cached rendering of the first response's data with no
state change. -/
theorem charge_second_request_replays_cached_witness :
    charge emptyState sampleRequest "k1" "TXN1" "REF1" 0 none =
      (ApiResult.ok 201 (chargeBody emptyState sampleRequest "TXN1" "REF1" 0),
       chargeSuccessState emptyState sampleRequest "k1" "TXN1" "REF1" 0) ∧
    charge (chargeSuccessState emptyState sampleRequest "k1" "TXN1" "REF1" 0)
        sampleRequest "k1" "TXN2" "REF2" 10 none =
      (ApiResult.ok 201 (chargeCachedBody emptyState sampleRequest "TXN1" "REF1" 0),
       chargeSuccessState emptyState sampleRequest "k1" "TXN1" "REF1" 0) ∧
    chargeBody emptyState sampleRequest "TXN1" "REF1" 0 =
      renderPaymentSep "," ":"
        (completeChargePayment
          (newChargePayment emptyState sampleRequest "TXN1" "REF1" 0) 0)
        [chargeTxn1 emptyState sampleRequest 0, chargeTxn2 emptyState sampleRequest 0] ∧
    chargeCachedBody emptyState sampleRequest "TXN1" "REF1" 0 =
      renderPaymentSep ", " ": "
        (completeChargePayment
          (newChargePayment emptyState sampleRequest "TXN1" "REF1" 0) 0)
        [chargeTxn1 emptyState sampleRequest 0, chargeTxn2 emptyState sampleRequest 0] :=
  charge_second_request_replays_cached emptyState sampleRequest sampleRequest
    sampleRequest sampleRequest "k1" "TXN1" "REF1" "TXN2" "REF2" 0 10 none
    validate_sampleRequest validate_sampleRequest rfl rfl
    (by constructor <;> simp [emptyState]) (by decide)

/-! Further helper lemmas shared by several claims. -/

theorem newChargePayment_order (st : DBState) (v : PaymentCreate) (t r : String)
    (n : Nat) : (newChargePayment st v t r n).order_id = v.order_id := rfl

theorem completeCP_order (p : Payment) (n : Nat) :
    (completeChargePayment p n).order_id = p.order_id := rfl

/-- A charge whose key does not replay and whose order id is already taken
fails with the DuplicateOrder client error and leaves the state untouched. -/
theorem charge_dup_order (st : DBState) (raw v : PaymentCreate)
    (key t r : String) (now : Nat) (failAt : Option FailPoint) (q : Payment)
    (hv : validatePaymentCreate raw = some v)
    (hkey : lookupIdem st key = none)
    (hq : findByOrder st v.order_id = some q) :
    charge st raw key t r now failAt =
      (ApiResult.httpError 400
        ("Payment for order_id " ++ toString v.order_id ++ " already exists"), st) := by
  simp only [charge, hv, hkey, chargeCore, hq]

theorem ordersUnique_append_single (ps : List Payment) (p : Payment)
    (h : ordersUnique ps) (hp : ∀ q ∈ ps, q.order_id ≠ p.order_id) :
    ordersUnique (ps ++ [p]) := by
  unfold ordersUnique at h ⊢
  rw [List.pairwise_append]
  refine ⟨h, by simp, ?_⟩
  intro a ha b hb
  simp at hb
  subst hb
  exact hp a ha

theorem find?_order_none (ps : List Payment) (oid : Int)
    (h : ps.find? (fun p => p.order_id = oid) = none) :
    ∀ q ∈ ps, q.order_id ≠ oid := by
  rw [List.find?_eq_none] at h
  intro q hq
  have := h q hq
  simpa using this

theorem chargeCore_preserves_orders (st : DBState) (v : PaymentCreate)
    (key t r : String) (now : Nat) (failAt : Option FailPoint)
    (hfresh : idsFresh st) (hu : ordersUnique st.payments) :
    ordersUnique (chargeCore st v key t r now failAt).2.payments := by
  rcases hq : findByOrder st v.order_id with _ | q
  · have hp : ∀ x ∈ st.payments, x.order_id ≠ v.order_id :=
      find?_order_none st.payments v.order_id hq
    have hupd : updatePayment (st.payments ++ [newChargePayment st v t r now])
        (newChargePayment st v t r now).payment_id
        (completeChargePayment (newChargePayment st v t r now) now) =
        st.payments ++ [completeChargePayment (newChargePayment st v t r now) now] :=
      updatePayment_append st.payments (newChargePayment st v t r now)
        (completeChargePayment (newChargePayment st v t r now) now)
        (fun x hx => by
          have := hfresh.1 x hx
          rw [newChargePayment_pid]
          omega)
    simp only [newChargePayment_pid] at hupd
    have h1 : ordersUnique (st.payments ++ [newChargePayment st v t r now]) :=
      ordersUnique_append_single _ _ hu (by
        intro x hx
        rw [newChargePayment_order]
        exact hp x hx)
    have h2 : ordersUnique (st.payments ++
        [completeChargePayment (newChargePayment st v t r now) now]) :=
      ordersUnique_append_single _ _ hu (by
        intro x hx
        rw [completeCP_order, newChargePayment_order]
        exact hp x hx)
    rcases failAt with _ | fp
    · simp [chargeCore, hq, failCharge, log_transaction, hupd, newChargePayment_pid]
      split
      · exact h2
      · exact h2
    · cases fp <;>
        simp [chargeCore, hq, failCharge, log_transaction, hupd,
          newChargePayment_pid] <;>
        first
          | exact hu
          | exact h1
          | exact h2
  · simp [chargeCore, hq]
    exact hu

theorem charge_preserves_orders (st : DBState) (raw : PaymentCreate)
    (key t r : String) (now : Nat) (failAt : Option FailPoint)
    (hfresh : idsFresh st) (hu : ordersUnique st.payments) :
    ordersUnique (charge st raw key t r now failAt).2.payments := by
  rcases hv : validatePaymentCreate raw with _ | v
  · simpa [charge, hv] using hu
  · rcases hl : lookupIdem st key with _ | rec
    · simp only [charge, hv, hl]
      exact chargeCore_preserves_orders st v key t r now failAt hfresh hu
    · simp only [charge, hv, hl]
      split
      · exact chargeCore_preserves_orders _ v key t r now failAt hfresh hu
      · split
        · exact hu
        · exact chargeCore_preserves_orders st v key t r now failAt hfresh hu

theorem create_preserves_orders (st : DBState) (raw : PaymentCreate)
    (t r : String) (now : Nat)
    (hu : ordersUnique st.payments) :
    ordersUnique (create_payment st raw t r now).2.payments := by
  rcases hv : validatePaymentCreate raw with _ | v
  · simpa [create_payment, hv] using hu
  · rcases hq : findByOrder st v.order_id with _ | q
    · simp only [create_payment, hv, hq, log_transaction]
      exact ordersUnique_append_single _ _ hu (by
        intro x hx
        show x.order_id ≠ (newChargePayment st v t r now).order_id
        rw [newChargePayment_order]
        exact find?_order_none st.payments v.order_id hq x hx)
    · simpa [create_payment, hv, hq] using hu

/-- C2 counterexample: from an empty database, a valid charge whose first
`log_transaction` commit fails leaves the already-committed Payment in the
ledger — the committed mutations are NOT rolled back, contradicting the claim
that the ledger is left as if the request never ran. -/
theorem charge_failure_not_rolled_back_counterexample :
    ((charge emptyState sampleRequest "k1" "TXN1" "REF1" 0
        (some FailPoint.initialTxnCommit)).2.payments.length = 1) ∧
    ¬ ((charge emptyState sampleRequest "k1" "TXN1" "REF1" 0
        (some FailPoint.initialTxnCommit)).2.payments = emptyState.payments) ∧
    (charge emptyState sampleRequest "k1" "TXN1" "REF1" 0
        (some FailPoint.initialTxnCommit)).1 =
      ApiResult.httpError 500 "Failed to charge payment" := by
  simp [charge, validate_sampleRequest, chargeCore, lookupIdem, findByOrder,
    emptyState, failCharge]

/-- C2 (amended): a failure at any commit site after the idempotency lookup
and before the idempotency record is persisted yields a 500 and stores no
idempotency record, but only the mutations of the failing commit are rolled
back: a failure of the payment-insert commit leaves the ledger unchanged,
while any later failure leaves the committed Payment in place, so a retry
with the same key fails with the DuplicateOrder client error rather than
succeeding. -/
theorem charge_failure_partial_rollback (st : DBState) (raw v : PaymentCreate)
    (key txnId ref : String) (now : Nat) (fp : FailPoint)
    (hv : validatePaymentCreate raw = some v)
    (hkey : lookupIdem st key = none)
    (horder : findByOrder st v.order_id = none)
    (hfresh : idsFresh st) :
    (charge st raw key txnId ref now (some fp)).1 =
      ApiResult.httpError 500 "Failed to charge payment" ∧
    (charge st raw key txnId ref now (some fp)).2.idemKeys = st.idemKeys ∧
    (fp = FailPoint.paymentCommit →
      (charge st raw key txnId ref now (some fp)).2.payments = st.payments ∧
      (charge st raw key txnId ref now (some fp)).2.transactions = st.transactions) ∧
    (fp ≠ FailPoint.paymentCommit →
      ∃ p, (charge st raw key txnId ref now (some fp)).2.payments =
            st.payments ++ [p] ∧ p.order_id = v.order_id) ∧
    (fp ≠ FailPoint.paymentCommit →
      ∀ raw2 v2 t2 r2 now2 fa2, validatePaymentCreate raw2 = some v2 →
        v2.order_id = v.order_id →
        (charge (charge st raw key txnId ref now (some fp)).2 raw2 key t2 r2 now2 fa2).1 =
          ApiResult.httpError 400
            ("Payment for order_id " ++ toString v.order_id ++ " already exists") ∧
        (charge (charge st raw key txnId ref now (some fp)).2 raw2 key t2 r2 now2 fa2).2 =
          (charge st raw key txnId ref now (some fp)).2) := by
  have hupd : updatePayment (st.payments ++ [newChargePayment st v txnId ref now])
      (newChargePayment st v txnId ref now).payment_id
      (completeChargePayment (newChargePayment st v txnId ref now) now) =
      st.payments ++ [completeChargePayment (newChargePayment st v txnId ref now) now] :=
    updatePayment_append st.payments (newChargePayment st v txnId ref now)
      (completeChargePayment (newChargePayment st v txnId ref now) now)
      (fun q hq => by
        have := hfresh.1 q hq
        rw [newChargePayment_pid]
        omega)
  simp only [newChargePayment_pid] at hupd
  have main : (charge st raw key txnId ref now (some fp)).1 =
      ApiResult.httpError 500 "Failed to charge payment" ∧
      (charge st raw key txnId ref now (some fp)).2.idemKeys = st.idemKeys ∧
      (fp = FailPoint.paymentCommit →
        (charge st raw key txnId ref now (some fp)).2.payments = st.payments ∧
        (charge st raw key txnId ref now (some fp)).2.transactions = st.transactions) ∧
      (fp ≠ FailPoint.paymentCommit →
        ∃ p, (charge st raw key txnId ref now (some fp)).2.payments =
              st.payments ++ [p] ∧ p.order_id = v.order_id) := by
    cases fp <;>
      simp [charge, hv, hkey, chargeCore, horder, failCharge, log_transaction,
        hupd, newChargePayment_pid, newChargePayment_order, completeCP_order]
  refine ⟨main.1, main.2.1, main.2.2.1, main.2.2.2, ?_⟩
  intro hne raw2 v2 t2 r2 now2 fa2 hv2 h2o
  obtain ⟨p, hpay, hpo⟩ := main.2.2.2 hne
  have hkey2 : lookupIdem (charge st raw key txnId ref now (some fp)).2 key = none := by
    unfold lookupIdem at hkey ⊢
    rw [main.2.1]
    exact hkey
  have hq : findByOrder (charge st raw key txnId ref now (some fp)).2 v2.order_id =
      some p := by
    unfold findByOrder at horder ⊢
    rw [hpay, h2o, List.find?_append, horder]
    simp [hpo]
  have hdup := charge_dup_order _ raw2 v2 key t2 r2 now2 fa2 p hv2 hkey2 hq
  rw [hdup, h2o]
  exact ⟨rfl, rfl⟩

/-- C2 witness: the partial-rollback theorem instantiated on an empty database
with a failure injected at the completion-transaction commit. -/
theorem charge_failure_partial_rollback_witness :
    (charge emptyState sampleRequest "k1" "TXN1" "REF1" 0
        (some FailPoint.completionTxnCommit)).1 =
      ApiResult.httpError 500 "Failed to charge payment" ∧
    (charge emptyState sampleRequest "k1" "TXN1" "REF1" 0
        (some FailPoint.completionTxnCommit)).2.idemKeys = emptyState.idemKeys ∧
    (∃ p, (charge emptyState sampleRequest "k1" "TXN1" "REF1" 0
        (some FailPoint.completionTxnCommit)).2.payments =
          emptyState.payments ++ [p] ∧ p.order_id = sampleRequest.order_id) := by
  have h := charge_failure_partial_rollback emptyState sampleRequest sampleRequest
    "k1" "TXN1" "REF1" 0 FailPoint.completionTxnCommit
    validate_sampleRequest rfl rfl (by constructor <;> simp [emptyState])
  exact ⟨h.1, h.2.1, h.2.2.2.1 (by decide)⟩

/-- C3: a charge for an order id that already has a Payment, presented under a
key with no stored record, fails with the DuplicateOrder 400 error and changes
nothing — no Payment, no Transaction, no idempotency record, and the failure is
not cached; moreover both payment-creating endpoints preserve the pairwise
uniqueness of `order_id` across the ledger, so at most one Payment ever exists
per order. -/
theorem duplicate_order_rejected_and_uniqueness_preserved :
    (∀ st raw v key t r now failAt q,
      validatePaymentCreate raw = some v →
      lookupIdem st key = none →
      findByOrder st v.order_id = some q →
      charge st raw key t r now failAt =
        (ApiResult.httpError 400
          ("Payment for order_id " ++ toString v.order_id ++ " already exists"),
         st)) ∧
    (∀ st raw key t r now failAt, idsFresh st → ordersUnique st.payments →
      ordersUnique (charge st raw key t r now failAt).2.payments) ∧
    (∀ st raw t r now, ordersUnique st.payments →
      ordersUnique (create_payment st raw t r now).2.payments) :=
  ⟨fun st raw v key t r now failAt q hv hkey hq =>
      charge_dup_order st raw v key t r now failAt q hv hkey hq,
   fun st raw key t r now failAt hfresh hu =>
      charge_preserves_orders st raw key t r now failAt hfresh hu,
   fun st raw t r now hu => create_preserves_orders st raw t r now hu⟩

/-- C3 witness: a second charge for order 501 under an unused key k2 against a
database already holding a payment for order 501 is rejected with the
DuplicateOrder error and the state is returned unchanged; uniqueness
preservation instantiated on the same database. -/
theorem duplicate_order_rejected_witness :
    charge (sampleState PaymentStatus.COMPLETED) sampleRequest "k2" "TXN9" "REF9"
        7 none =
      (ApiResult.httpError 400
        ("Payment for order_id " ++ toString sampleRequest.order_id ++
          " already exists"),
       sampleState PaymentStatus.COMPLETED) ∧
    ordersUnique (charge (sampleState PaymentStatus.COMPLETED) sampleRequest "k2"
        "TXN9" "REF9" 7 none).2.payments ∧
    ordersUnique (create_payment (sampleState PaymentStatus.COMPLETED)
        sampleRequest "TXN9" "REF9" 7).2.payments :=
  ⟨duplicate_order_rejected_and_uniqueness_preserved.1
      (sampleState PaymentStatus.COMPLETED) sampleRequest sampleRequest "k2"
      "TXN9" "REF9" 7 none (samplePayment PaymentStatus.COMPLETED)
      validate_sampleRequest rfl rfl,
   duplicate_order_rejected_and_uniqueness_preserved.2.1
      (sampleState PaymentStatus.COMPLETED) sampleRequest "k2" "TXN9" "REF9" 7 none
      (by constructor <;> simp [sampleState, samplePayment])
      (by simp [sampleState, ordersUnique]),
   duplicate_order_rejected_and_uniqueness_preserved.2.2
      (sampleState PaymentStatus.COMPLETED) sampleRequest "TXN9" "REF9" 7
      (by simp [sampleState, ordersUnique])⟩

/-- C4 counterexample: from an empty database, a single successful charge
creates one Payment but TWO Transaction rows (the handler logs one PROCESSING
initiation transaction and one COMPLETED completion transaction), refuting
"exactly one matching Transaction record". -/
theorem charge_two_transactions_counterexample :
    ¬ ((charge emptyState sampleRequest "k1" "TXN1" "REF1" 0 none).2.transactions.length = 1) ∧
    (charge emptyState sampleRequest "k1" "TXN1" "REF1" 0 none).2.transactions.length = 2 ∧
    (charge emptyState sampleRequest "k1" "TXN1" "REF1" 0 none).2.payments.length = 1 ∧
    (charge emptyState sampleRequest "k1" "TXN1" "REF1" 0 none).1.isOk = true := by
  rw [charge_success emptyState sampleRequest sampleRequest "k1" "TXN1" "REF1" 0
    validate_sampleRequest rfl rfl (by constructor <;> simp [emptyState])]
  simp [chargeSuccessState, emptyState, ApiResult.isOk]

/-- C4 (amended): a valid charge with an unused key and a free order id
returns 201 and creates exactly one Payment and exactly TWO matching
Transaction rows — one PROCESSING initiation entry and one COMPLETED
completion entry, both of type PAYMENT, both for the new payment and carrying
the charged amount — and increases `total_amount_processed` by exactly the
charged amount. -/
theorem charge_creates_one_payment_two_transactions (st : DBState)
    (raw v : PaymentCreate) (key txnId ref : String) (now : Nat)
    (hv : validatePaymentCreate raw = some v)
    (hkey : lookupIdem st key = none)
    (horder : findByOrder st v.order_id = none)
    (hfresh : idsFresh st) :
    (charge st raw key txnId ref now none).1 =
      ApiResult.ok 201 (chargeBody st v txnId ref now) ∧
    (charge st raw key txnId ref now none).2.payments =
      st.payments ++ [completeChargePayment (newChargePayment st v txnId ref now) now] ∧
    (charge st raw key txnId ref now none).2.transactions =
      st.transactions ++ [chargeTxn1 st v now, chargeTxn2 st v now] ∧
    (charge st raw key txnId ref now none).2.metrics.total_amount_processed =
      st.metrics.total_amount_processed + v.amount ∧
    (completeChargePayment (newChargePayment st v txnId ref now) now).order_id = v.order_id ∧
    (completeChargePayment (newChargePayment st v txnId ref now) now).amount = v.amount ∧
    (completeChargePayment (newChargePayment st v txnId ref now) now).status =
      PaymentStatus.COMPLETED ∧
    (chargeTxn1 st v now).payment_id =
      (completeChargePayment (newChargePayment st v txnId ref now) now).payment_id ∧
    (chargeTxn2 st v now).payment_id =
      (completeChargePayment (newChargePayment st v txnId ref now) now).payment_id ∧
    (chargeTxn1 st v now).amount = v.amount ∧ (chargeTxn2 st v now).amount = v.amount ∧
    (chargeTxn1 st v now).transaction_type = TransactionType.PAYMENT ∧
    (chargeTxn2 st v now).transaction_type = TransactionType.PAYMENT := by
  rw [charge_success st raw v key txnId ref now hv hkey horder hfresh]
  refine ⟨rfl, rfl, rfl, rfl, rfl, rfl, rfl, rfl, rfl, rfl, rfl, rfl, rfl⟩

/-- C4 witness: the amended creation theorem instantiated on the empty
database with the sample request. -/
theorem charge_creates_one_payment_two_transactions_witness :
    (charge emptyState sampleRequest "k1" "TXN1" "REF1" 0 none).1 =
      ApiResult.ok 201 (chargeBody emptyState sampleRequest "TXN1" "REF1" 0) ∧
    (charge emptyState sampleRequest "k1" "TXN1" "REF1" 0 none).2.payments =
      emptyState.payments ++
        [completeChargePayment (newChargePayment emptyState sampleRequest "TXN1" "REF1" 0) 0] ∧
    (charge emptyState sampleRequest "k1" "TXN1" "REF1" 0 none).2.transactions =
      emptyState.transactions ++
        [chargeTxn1 emptyState sampleRequest 0, chargeTxn2 emptyState sampleRequest 0] ∧
    (charge emptyState sampleRequest "k1" "TXN1" "REF1" 0 none).2.metrics.total_amount_processed =
      emptyState.metrics.total_amount_processed + sampleRequest.amount := by
  have h := charge_creates_one_payment_two_transactions emptyState sampleRequest
    sampleRequest "k1" "TXN1" "REF1" 0 validate_sampleRequest rfl rfl
    (by constructor <;> simp [emptyState])
  exact ⟨h.1, h.2.1, h.2.2.1, h.2.2.2.1⟩

/-- C5 counterexample: the status endpoint happily moves a CANCELLED payment
to PROCESSING — the handler only guards the COMPLETED and REFUNDED states, so
CANCELLED is not terminal, refuting "if the current status is CANCELLED, every
transition fails". -/
theorem update_status_out_of_cancelled_counterexample :
    (update_payment_status (sampleState PaymentStatus.CANCELLED) 1
        PaymentStatus.PROCESSING none 5).1.isOk = true ∧
    (update_payment_status (sampleState PaymentStatus.CANCELLED) 1
        PaymentStatus.PROCESSING none 5).2.payments.map Payment.status =
      [PaymentStatus.PROCESSING] := by
  simp [update_payment_status, findPayment, sampleState, samplePayment,
    updatePayment, ApiResult.isOk, log_transaction]

/-- C5 (amended): a manual status update of a COMPLETED payment fails with a
400 and no state change unless the target is REFUNDED, and every update of a
REFUNDED payment fails with a 400 and no state change; but CANCELLED is not
guarded — an update of a CANCELLED payment succeeds for any target status and
rewrites the payment's status to it. -/
theorem update_status_guards (st : DBState) (pid : Nat) (target : PaymentStatus)
    (gw : Option String) (now : Nat) :
    (∀ p, findPayment st pid = some p → p.status = PaymentStatus.COMPLETED →
      target ≠ PaymentStatus.REFUNDED →
      update_payment_status st pid target gw now =
        (ApiResult.httpError 400
          "Cannot change status of completed payment (use refund endpoint)", st)) ∧
    (∀ p, findPayment st pid = some p → p.status = PaymentStatus.REFUNDED →
      update_payment_status st pid target gw now =
        (ApiResult.httpError 400 "Cannot change status of refunded payment", st)) ∧
    (∀ p, findPayment st pid = some p → p.status = PaymentStatus.CANCELLED →
      (update_payment_status st pid target gw now).1.isOk = true ∧
      ∃ p₂, (update_payment_status st pid target gw now).2.payments =
          updatePayment st.payments pid p₂ ∧ p₂.status = target) := by
  refine ⟨?_, ?_, ?_⟩
  · intro p hfind hc hne
    simp only [update_payment_status, hfind]
    rw [if_pos ⟨hc, hne⟩]
  · intro p hfind hr
    simp only [update_payment_status, hfind]
    rw [if_neg (by simp [hr]), if_pos hr]
  · intro p hfind hcan
    simp only [update_payment_status, hfind]
    rw [if_neg (by simp [hcan]), if_neg (by simp [hcan])]
    refine ⟨rfl, ⟨_, rfl, ?_⟩⟩
    by_cases hfc : target = PaymentStatus.COMPLETED ∧ p.completed_at = none
    · simp [hfc]
    · simp [hfc]

/-- C5 witness: the guard theorem instantiated on one-payment databases — a
COMPLETED payment refuses a PROCESSING update, a REFUNDED payment refuses any
update, and a CANCELLED payment accepts a PENDING update. -/
theorem update_status_guards_witness :
    update_payment_status (sampleState PaymentStatus.COMPLETED) 1
        PaymentStatus.PROCESSING none 5 =
      (ApiResult.httpError 400
        "Cannot change status of completed payment (use refund endpoint)",
       sampleState PaymentStatus.COMPLETED) ∧
    update_payment_status (sampleState PaymentStatus.REFUNDED) 1
        PaymentStatus.PROCESSING none 5 =
      (ApiResult.httpError 400 "Cannot change status of refunded payment",
       sampleState PaymentStatus.REFUNDED) ∧
    ((update_payment_status (sampleState PaymentStatus.CANCELLED) 1
        PaymentStatus.PENDING none 5).1.isOk = true ∧
     ∃ p₂, (update_payment_status (sampleState PaymentStatus.CANCELLED) 1
        PaymentStatus.PENDING none 5).2.payments =
          updatePayment (sampleState PaymentStatus.CANCELLED).payments 1 p₂ ∧
        p₂.status = PaymentStatus.PENDING) :=
  ⟨(update_status_guards (sampleState PaymentStatus.COMPLETED) 1
      PaymentStatus.PROCESSING none 5).1 (samplePayment PaymentStatus.COMPLETED)
      rfl rfl (by decide),
   (update_status_guards (sampleState PaymentStatus.REFUNDED) 1
      PaymentStatus.PROCESSING none 5).2.1 (samplePayment PaymentStatus.REFUNDED)
      rfl rfl,
   (update_status_guards (sampleState PaymentStatus.CANCELLED) 1
      PaymentStatus.PENDING none 5).2.2 (samplePayment PaymentStatus.CANCELLED)
      rfl rfl⟩

/-- Looking up a payment after `updatePayment` returns the replacement. -/
theorem find?_updatePayment (ps : List Payment) (pid : Nat) (p p' : Payment)
    (hf : ps.find? (fun q => q.payment_id = pid) = some p)
    (hp' : p'.payment_id = pid) :
    (updatePayment ps pid p').find? (fun q => q.payment_id = pid) = some p' := by
  induction ps with
  | nil => simp at hf
  | cons h t ih =>
    unfold updatePayment at *
    by_cases hh : h.payment_id = pid
    · simp [hh, hp']
    · simp only [List.map_cons, if_neg hh]
      rw [List.find?_cons_of_neg _ (by simp [hh])] at hf ⊢
      exact ih hf

theorem find?_some_pid (ps : List Payment) (pid : Nat) (p : Payment)
    (hf : ps.find? (fun q => q.payment_id = pid) = some p) :
    p.payment_id = pid := by
  have := List.find?_some hf
  simpa using this

/-- C6: refund fails with 404 when the payment id is unknown; fails with a 400
and no state change when the status is not exactly COMPLETED; fails with a 400
and no state change when the requested amount exceeds the original (the amount
defaults to the full original when omitted, which never exceeds it); and a
successful refund marks the payment REFUNDED, appends one REFUND transaction
carrying the refunded amount, and is terminal — every further refund or manual
status update of that payment fails with no state change. -/
theorem refund_rules :
    (∀ st pid a reason now, validRefundRequest a reason = true →
      findPayment st pid = none →
      refund_payment st pid a reason now =
        (ApiResult.httpError 404 ("Payment " ++ toString pid ++ " not found"), st)) ∧
    (∀ st pid a reason now p, validRefundRequest a reason = true →
      findPayment st pid = some p → p.status ≠ PaymentStatus.COMPLETED →
      refund_payment st pid a reason now =
        (ApiResult.httpError 400
          ("Cannot refund payment with status: " ++ p.status.value), st)) ∧
    (∀ st pid a0 reason now p, validRefundRequest (some a0) reason = true →
      findPayment st pid = some p → p.status = PaymentStatus.COMPLETED →
      p.amount < a0 →
      refund_payment st pid (some a0) reason now =
        (ApiResult.httpError 400 "Refund amount cannot exceed payment amount", st)) ∧
    (∀ st pid a reason now p ra, validRefundRequest a reason = true →
      findPayment st pid = some p → p.status = PaymentStatus.COMPLETED →
      ra = (match a with
            | none => p.amount
            | some x => if x = 0 then p.amount else x) →
      ra ≤ p.amount →
      (refund_payment st pid a reason now).1.isOk = true ∧
      (refund_payment st pid a reason now).2.payments =
        updatePayment st.payments pid
          { p with status := PaymentStatus.REFUNDED, updated_at := now,
                   gateway_response := some ("Refund: " ++ reason) } ∧
      (refund_payment st pid a reason now).2.transactions =
        st.transactions ++
          [{ transaction_log_id := st.nextTxnLogId, payment_id := pid,
             transaction_type := TransactionType.REFUND, amount := ra,
             status := PaymentStatus.REFUNDED,
             description := "Refund of " ++ toString ra ++ " " ++ p.currency ++
               ": " ++ reason,
             created_at := now }] ∧
      (∀ a2 r2 n2,
        (refund_payment (refund_payment st pid a reason now).2 pid a2 r2 n2).1.isOk =
          false ∧
        (refund_payment (refund_payment st pid a reason now).2 pid a2 r2 n2).2 =
          (refund_payment st pid a reason now).2) ∧
      (∀ tgt gw n2,
        (update_payment_status (refund_payment st pid a reason now).2 pid tgt gw
          n2).1.isOk = false ∧
        (update_payment_status (refund_payment st pid a reason now).2 pid tgt gw
          n2).2 = (refund_payment st pid a reason now).2)) := by
  refine ⟨?_, ?_, ?_, ?_⟩
  · intro st pid a reason now hval hfind
    simp only [refund_payment, hval, hfind]
    simp
  · intro st pid a reason now p hval hfind hne
    simp only [refund_payment, hval, hfind]
    simp [hne]
  · intro st pid a0 reason now p hval hfind hcomp hlt
    simp only [refund_payment, hval, hfind]
    rw [if_neg (by simp), if_neg (by simp [hcomp])]
    have ha0 : ¬ (a0 = 0) := by
      intro h0
      simp [validRefundRequest, h0] at hval
    rw [show (if a0 = 0 then p.amount else a0) = a0 from if_neg ha0] at *
    rw [if_pos hlt]
  · intro st pid a reason now p ra hval hfind hcomp hra hle
    have hpid : p.payment_id = pid := find?_some_pid st.payments pid p hfind
    have hfu : (updatePayment st.payments pid
        { p with status := PaymentStatus.REFUNDED, updated_at := now,
                 gateway_response := some ("Refund: " ++ reason) }).find?
          (fun q => q.payment_id = pid) =
        some { p with status := PaymentStatus.REFUNDED, updated_at := now,
                      gateway_response := some ("Refund: " ++ reason) } :=
      find?_updatePayment st.payments pid p _ hfind (by simpa using hpid)
    simp only [refund_payment, hval, hfind]
    rw [if_neg (by simp), if_neg (by simp [hcomp])]
    rw [← hra, if_neg (not_lt.mpr hle)]
    refine ⟨rfl, rfl, rfl, ?_, ?_⟩
    · intro a2 r2 n2
      by_cases hv2 : validRefundRequest a2 r2 = true
      · simp only [refund_payment, hv2, findPayment, log_transaction]
        simp only [hfu]
        simp [ApiResult.isOk]
      · simp only [refund_payment]
        rw [if_pos (by simp [hv2])]
        simp [ApiResult.isOk]
    · intro tgt gw n2
      simp only [update_payment_status, findPayment, log_transaction]
      simp only [hfu]
      simp [ApiResult.isOk]

/-- C6 witness: the refund rules instantiated on one-payment databases — a
missing id gives 404, a PENDING payment refuses refund, a 150 refund of a
100 payment is rejected, and a 50 partial refund of a COMPLETED 100 payment
succeeds and blocks any further refund or status update. -/
theorem refund_rules_witness :
    refund_payment emptyState 1 none "customer request" 5 =
      (ApiResult.httpError 404 ("Payment " ++ toString (1 : Nat) ++ " not found"),
       emptyState) ∧
    refund_payment (sampleState PaymentStatus.PENDING) 1 none "customer request" 5 =
      (ApiResult.httpError 400 ("Cannot refund payment with status: " ++
        (samplePayment PaymentStatus.PENDING).status.value),
       sampleState PaymentStatus.PENDING) ∧
    refund_payment (sampleState PaymentStatus.COMPLETED) 1 (some 150)
        "customer request" 5 =
      (ApiResult.httpError 400 "Refund amount cannot exceed payment amount",
       sampleState PaymentStatus.COMPLETED) ∧
    (refund_payment (sampleState PaymentStatus.COMPLETED) 1 (some 50)
        "customer request" 5).1.isOk = true ∧
    (refund_payment (refund_payment (sampleState PaymentStatus.COMPLETED) 1
        (some 50) "customer request" 5).2 1 none "again please" 9).1.isOk = false ∧
    (update_payment_status (refund_payment (sampleState PaymentStatus.COMPLETED) 1
        (some 50) "customer request" 5).2 1 PaymentStatus.PENDING none 9).1.isOk =
      false := by
  have h4 := refund_rules.2.2.2 (sampleState PaymentStatus.COMPLETED) 1 (some 50)
    "customer request" 5 (samplePayment PaymentStatus.COMPLETED) 50
    (by decide) rfl rfl (by decide) (by decide)
  refine ⟨refund_rules.1 emptyState 1 none "customer request" 5 (by decide) rfl,
    refund_rules.2.1 (sampleState PaymentStatus.PENDING) 1 none "customer request"
      5 (samplePayment PaymentStatus.PENDING) (by decide) rfl (by decide),
    refund_rules.2.2.1 (sampleState PaymentStatus.COMPLETED) 1 150
      "customer request" 5 (samplePayment PaymentStatus.COMPLETED) (by decide) rfl
      rfl (by decide),
    h4.1,
    (h4.2.2.2.1 none "again please" 9).1,
    (h4.2.2.2.2 PaymentStatus.PENDING none 9).1⟩

/-- C7 counterexample: cancelling a PENDING payment succeeds, but the
resulting CANCELLED state is not terminal — a subsequent manual status update
moves the payment back to PENDING, refuting "setting the status to CANCELLED,
which is terminal". -/
theorem cancel_not_terminal_counterexample :
    (cancel_payment (sampleState PaymentStatus.PENDING) 1 5).1.isOk = true ∧
    (update_payment_status (cancel_payment (sampleState PaymentStatus.PENDING) 1
        5).2 1 PaymentStatus.PENDING none 6).1.isOk = true ∧
    (update_payment_status (cancel_payment (sampleState PaymentStatus.PENDING) 1
        5).2 1 PaymentStatus.PENDING none 6).2.payments.map Payment.status =
      [PaymentStatus.PENDING] := by
  simp [cancel_payment, update_payment_status, findPayment, sampleState,
    samplePayment, updatePayment, ApiResult.isOk, log_transaction]

/-- C7 (amended): cancel fails with a 400 and no state change when the
payment is COMPLETED or REFUNDED, and succeeds for PENDING or PROCESSING,
setting the status to CANCELLED; but CANCELLED is not terminal — the status
endpoint accepts any transition out of a cancelled payment, and a repeat
cancel of a CANCELLED payment also succeeds. -/
theorem cancel_rules (st : DBState) (pid : Nat) (now : Nat) :
    (∀ p, findPayment st pid = some p →
      (p.status = PaymentStatus.COMPLETED ∨ p.status = PaymentStatus.REFUNDED) →
      cancel_payment st pid now =
        (ApiResult.httpError 400
          ("Cannot cancel payment with status: " ++ p.status.value), st)) ∧
    (∀ p, findPayment st pid = some p →
      (p.status = PaymentStatus.PENDING ∨ p.status = PaymentStatus.PROCESSING) →
      (cancel_payment st pid now).1.isOk = true ∧
      (cancel_payment st pid now).2.payments =
        updatePayment st.payments pid
          { p with status := PaymentStatus.CANCELLED, updated_at := now } ∧
      (∀ tgt gw n2,
        (update_payment_status (cancel_payment st pid now).2 pid tgt gw n2).1.isOk =
          true)) ∧
    (∀ p, findPayment st pid = some p → p.status = PaymentStatus.CANCELLED →
      (cancel_payment st pid now).1.isOk = true) := by
  refine ⟨?_, ?_, ?_⟩
  · intro p hfind hg
    simp only [cancel_payment, hfind]
    rw [if_pos hg]
  · intro p hfind hg
    have hpid : p.payment_id = pid := find?_some_pid st.payments pid p hfind
    have hng : ¬ (p.status = PaymentStatus.COMPLETED ∨
        p.status = PaymentStatus.REFUNDED) := by
      rcases hg with h | h <;> simp [h]
    have hfu : (updatePayment st.payments pid
        { p with status := PaymentStatus.CANCELLED, updated_at := now }).find?
          (fun q => q.payment_id = pid) =
        some { p with status := PaymentStatus.CANCELLED, updated_at := now } :=
      find?_updatePayment st.payments pid p _ hfind (by simpa using hpid)
    simp only [cancel_payment, hfind]
    rw [if_neg hng]
    refine ⟨rfl, rfl, ?_⟩
    intro tgt gw n2
    simp only [update_payment_status, findPayment, log_transaction]
    simp only [hfu]
    simp [ApiResult.isOk]
  · intro p hfind hc
    simp only [cancel_payment, hfind]
    rw [if_neg (by simp [hc])]
    rfl

/-- C7 witness: cancel rules on one-payment databases — cancelling a
COMPLETED payment is rejected, cancelling a PROCESSING payment succeeds (and
the status endpoint can still move the payment afterwards), and cancelling an
already CANCELLED payment succeeds as well. -/
theorem cancel_rules_witness :
    cancel_payment (sampleState PaymentStatus.COMPLETED) 1 5 =
      (ApiResult.httpError 400 ("Cannot cancel payment with status: " ++
        (samplePayment PaymentStatus.COMPLETED).status.value),
       sampleState PaymentStatus.COMPLETED) ∧
    (cancel_payment (sampleState PaymentStatus.PROCESSING) 1 5).1.isOk = true ∧
    (update_payment_status (cancel_payment (sampleState PaymentStatus.PROCESSING)
        1 5).2 1 PaymentStatus.PROCESSING none 6).1.isOk = true ∧
    (cancel_payment (sampleState PaymentStatus.CANCELLED) 1 5).1.isOk = true := by
  have h2 := (cancel_rules (sampleState PaymentStatus.PROCESSING) 1 5).2.1
    (samplePayment PaymentStatus.PROCESSING) rfl (Or.inr rfl)
  exact ⟨(cancel_rules (sampleState PaymentStatus.COMPLETED) 1 5).1
      (samplePayment PaymentStatus.COMPLETED) rfl (Or.inl rfl),
    h2.1,
    h2.2.2 PaymentStatus.PROCESSING none 6,
    (cancel_rules (sampleState PaymentStatus.CANCELLED) 1 5).2.2
      (samplePayment PaymentStatus.CANCELLED) rfl rfl⟩

/-- The rejected request of the spec scenario: order 502, amount 100000.01. -/
def overLimitRequest : PaymentCreate :=
  { order_id := 502, user_id := 1, amount := 10000001/100, currency := "INR",
    payment_method := PaymentMethod.UPI, reference := none }

/-- 100000.01 exceeds the configured maximum. -/
theorem overLimit_amount : (100000 : ℚ) < overLimitRequest.amount := by
  norm_num [overLimitRequest]

/-- An out-of-range amount makes pydantic validation fail. -/
theorem validate_none_of_amount (raw : PaymentCreate)
    (h : raw.amount ≤ 0 ∨ 100000 < raw.amount) :
    validatePaymentCreate raw = none := by
  have hva : validate_amount raw.amount = none := by
    unfold validate_amount
    rcases h with h | h
    · rw [if_pos h]
    · rw [if_neg (by linarith), if_pos h]
  unfold validatePaymentCreate
  rw [hva]
  repeat' split
  all_goals simp_all

/-- What validation guarantees about an accepted amount: it is the 2-decimal
rounding of the submitted amount, which was positive and at most 100000. -/
theorem validate_amount_spec (raw v : PaymentCreate)
    (hv : validatePaymentCreate raw = some v) :
    v.amount = round2 raw.amount ∧ 0 < raw.amount ∧ raw.amount ≤ 100000 := by
  unfold validatePaymentCreate at hv
  split at hv
  · exact absurd hv (by simp)
  · split at hv
    · exact absurd hv (by simp)
    · split at hv
      · exact absurd hv (by simp)
      · split at hv
        · exact absurd hv (by simp)
        · rcases hm : validate_amount raw.amount with _ | a
          · rw [hm] at hv
            exact absurd hv (by simp)
          · rw [hm] at hv
            simp only [Option.some.injEq] at hv
            unfold validate_amount at hm
            by_cases h1 : raw.amount ≤ 0
            · rw [if_pos h1] at hm
              exact absurd hm (by simp)
            · rw [if_neg h1] at hm
              by_cases h2 : (100000 : ℚ) < raw.amount
              · rw [if_pos h2] at hm
                exact absurd hm (by simp)
              · rw [if_neg h2] at hm
                simp only [Option.some.injEq] at hm
                subst hv
                exact ⟨by rw [← hm], not_le.mp h1, not_lt.mp h2⟩

/-- C8: a charge or create request whose amount is non-positive or above the
configured maximum of 100000 is rejected with a validation error before any
Payment, Transaction or IdempotencyRecord is persisted (the state is returned
untouched); an accepted amount is exactly the submitted amount rounded to two
decimal places, and a successful charge stores the Payment with that rounded
amount. -/
theorem amount_validation_rules :
    (∀ st raw key t r now failAt,
      (raw.amount ≤ 0 ∨ 100000 < raw.amount) →
      charge st raw key t r now failAt = (ApiResult.validationError, st)) ∧
    (∀ st raw t r now,
      (raw.amount ≤ 0 ∨ 100000 < raw.amount) →
      create_payment st raw t r now = (ApiResult.validationError, st)) ∧
    (∀ raw v, validatePaymentCreate raw = some v →
      v.amount = round2 raw.amount ∧ 0 < raw.amount ∧ raw.amount ≤ 100000) ∧
    (∀ st raw v key txnId ref now,
      validatePaymentCreate raw = some v →
      lookupIdem st key = none →
      findByOrder st v.order_id = none →
      idsFresh st →
      ∃ p, (charge st raw key txnId ref now none).2.payments =
          st.payments ++ [p] ∧ p.amount = round2 raw.amount) := by
  refine ⟨?_, ?_, ?_, ?_⟩
  · intro st raw key t r now failAt h
    simp [charge, validate_none_of_amount raw h]
  · intro st raw t r now h
    simp [create_payment, validate_none_of_amount raw h]
  · intro raw v hv
    exact validate_amount_spec raw v hv
  · intro st raw v key txnId ref now hv hkey horder hfresh
    rw [charge_success st raw v key txnId ref now hv hkey horder hfresh]
    refine ⟨completeChargePayment (newChargePayment st v txnId ref now) now, rfl, ?_⟩
    exact (validate_amount_spec raw v hv).1

/-- C8 witness: the 100000.01 charge and create for order 502 are rejected
with no state change; the accepted sample amount 100 is stored as its own
2-decimal rounding. -/
theorem amount_validation_rules_witness :
    charge emptyState overLimitRequest "k1" "TXN1" "REF1" 0 none =
      (ApiResult.validationError, emptyState) ∧
    create_payment emptyState overLimitRequest "TXN1" "REF1" 0 =
      (ApiResult.validationError, emptyState) ∧
    (sampleRequest.amount = round2 sampleRequest.amount ∧
      0 < sampleRequest.amount ∧ sampleRequest.amount ≤ 100000) ∧
    (∃ p, (charge emptyState sampleRequest "k1" "TXN1" "REF1" 0 none).2.payments =
        emptyState.payments ++ [p] ∧ p.amount = round2 sampleRequest.amount) :=
  ⟨amount_validation_rules.1 emptyState overLimitRequest "k1" "TXN1" "REF1" 0 none
      (Or.inr overLimit_amount),
   amount_validation_rules.2.1 emptyState overLimitRequest "TXN1" "REF1" 0
      (Or.inr overLimit_amount),
   amount_validation_rules.2.2.1 sampleRequest sampleRequest validate_sampleRequest,
   amount_validation_rules.2.2.2 emptyState sampleRequest sampleRequest "k1"
      "TXN1" "REF1" 0 validate_sampleRequest rfl rfl
      (by constructor <;> simp [emptyState])⟩

/-- C9 counterexample: against a database whose only row is a fresh
idempotency record for k1 with an empty response body, a valid charge under
k1 does fall through the replay branch, but it does NOT behave like an absent
key: the payment is created and committed and then the idempotency-record
insert collides with the existing unique key, so the request ends in a 500 —
whereas the identical charge against a database without the record succeeds. -/
theorem fresh_empty_body_counterexample :
    (charge stEmptyBody sampleRequest "k1" "TXN1" "REF1" 5 none).1 =
      ApiResult.httpError 500 "Failed to charge payment" ∧
    (charge stEmptyBody sampleRequest "k1" "TXN1" "REF1" 5 none).2.payments.length = 1 ∧
    (charge stEmptyBody sampleRequest "k1" "TXN1" "REF1" 5 none).2.idemKeys =
      stEmptyBody.idemKeys ∧
    (charge emptyState sampleRequest "k1" "TXN1" "REF1" 5 none).1.isOk = true := by
  refine ⟨?_, ?_, ?_, ?_⟩ <;>
    first
      | (rw [charge_success emptyState sampleRequest sampleRequest "k1" "TXN1"
          "REF1" 5 validate_sampleRequest rfl rfl
          (by constructor <;> simp [emptyState])]
         rfl)
      | simp [charge, validate_sampleRequest, stEmptyBody, chargeCore, lookupIdem,
          findByOrder, failCharge, hasBody, log_transaction, updatePayment]

/-- C9 (amended): a fresh record whose stored response body is empty or null
is not replayed — the handler proceeds to the order-uniqueness check and the
payment-creation path exactly as from that state (it equals `chargeCore` on
the unchanged state, for any injected failure) — but it does not behave like
an absent key: with a free order id and no injected failure the
idempotency-record insert violates the key's uniqueness constraint, so the
charge returns a 500 with the Payment already committed and the stored record
left in place. -/
theorem fresh_empty_body_no_replay :
    (∀ st raw v key t r now failAt rec,
      validatePaymentCreate raw = some v →
      lookupIdem st key = some rec →
      ¬ rec.expires_at < now →
      hasBody rec.response_body = false →
      charge st raw key t r now failAt = chargeCore st v key t r now failAt) ∧
    (∀ st raw v key t r now rec,
      validatePaymentCreate raw = some v →
      lookupIdem st key = some rec →
      ¬ rec.expires_at < now →
      hasBody rec.response_body = false →
      findByOrder st v.order_id = none →
      idsFresh st →
      (charge st raw key t r now none).1 =
        ApiResult.httpError 500 "Failed to charge payment" ∧
      (charge st raw key t r now none).2.idemKeys = st.idemKeys ∧
      ∃ p, (charge st raw key t r now none).2.payments = st.payments ++ [p]) := by
  have fall : ∀ st raw v key t r now failAt rec,
      validatePaymentCreate raw = some v →
      lookupIdem st key = some rec →
      ¬ rec.expires_at < now →
      hasBody rec.response_body = false →
      charge st raw key t r now failAt = chargeCore st v key t r now failAt := by
    intro st raw v key t r now failAt rec hv hl hexp hb
    simp only [charge, hv, hl]
    rw [if_neg hexp]
    simp [hb]
  refine ⟨fall, ?_⟩
  intro st raw v key t r now rec hv hl hexp hb horder hfresh
  rw [fall st raw v key t r now none rec hv hl hexp hb]
  have hupd : updatePayment (st.payments ++ [newChargePayment st v t r now])
      (newChargePayment st v t r now).payment_id
      (completeChargePayment (newChargePayment st v t r now) now) =
      st.payments ++ [completeChargePayment (newChargePayment st v t r now) now] :=
    updatePayment_append st.payments (newChargePayment st v t r now)
      (completeChargePayment (newChargePayment st v t r now) now)
      (fun q hq => by
        have := hfresh.1 q hq
        rw [newChargePayment_pid]
        omega)
  simp only [newChargePayment_pid] at hupd
  have hl2 : st.idemKeys.find? (fun x => x.idempotency_key = key) = some rec := hl
  have hex : ∃ x ∈ st.idemKeys, x.idempotency_key = key :=
    ⟨rec, List.mem_of_find?_eq_some hl2, by simpa using List.find?_some hl2⟩
  simp [chargeCore, horder, failCharge, log_transaction, hupd,
    newChargePayment_pid, lookupIdem, hl2, hex]

/-- C9 witness: the fall-through and conflict behaviour instantiated on the
one-record empty-body database. -/
theorem fresh_empty_body_no_replay_witness :
    charge stEmptyBody sampleRequest "k1" "TXN1" "REF1" 5 none =
      chargeCore stEmptyBody sampleRequest "k1" "TXN1" "REF1" 5 none ∧
    (charge stEmptyBody sampleRequest "k1" "TXN1" "REF1" 5 none).1 =
      ApiResult.httpError 500 "Failed to charge payment" ∧
    (charge stEmptyBody sampleRequest "k1" "TXN1" "REF1" 5 none).2.idemKeys =
      stEmptyBody.idemKeys ∧
    (∃ p, (charge stEmptyBody sampleRequest "k1" "TXN1" "REF1" 5 none).2.payments =
        stEmptyBody.payments ++ [p]) := by
  have h2 := fresh_empty_body_no_replay.2 stEmptyBody sampleRequest sampleRequest
    "k1" "TXN1" "REF1" 5
    { idempotency_key := "k1", payment_id := none, request_hash := "h",
      response_body := some "", status_code := 201, created_at := 0,
      expires_at := 100 }
    validate_sampleRequest rfl (by decide) (by decide) rfl
    (by constructor <;> simp [stEmptyBody])
  exact ⟨fresh_empty_body_no_replay.1 stEmptyBody sampleRequest sampleRequest
      "k1" "TXN1" "REF1" 5 none
      { idempotency_key := "k1", payment_id := none, request_hash := "h",
        response_body := some "", status_code := 201, created_at := 0,
        expires_at := 100 }
      validate_sampleRequest rfl (by decide) (by decide),
    h2.1, h2.2.1, h2.2.2⟩

/-- C10: a successful partial refund (amount strictly below the original)
sets the status to REFUNDED exactly as a full refund would; the stored
payment is precisely the old row with only `status`, `updated_at` and
`gateway_response` rewritten — in particular its `amount` field is unchanged —
while the partial amount is recorded only in the appended REFUND transaction
and the refund metrics (`total_refunds` grows by the partial amount,
`refunds_processed_total` by one); and since the payment is now REFUNDED,
no further refund can ever succeed, so the remainder is unrefundable. -/
theorem partial_refund_frame (st : DBState) (pid : Nat) (p : Payment) (a : ℚ)
    (reason : String) (now : Nat)
    (hval : validRefundRequest (some a) reason = true)
    (hfind : findPayment st pid = some p)
    (hcomp : p.status = PaymentStatus.COMPLETED)
    (hlt : a < p.amount) :
    (refund_payment st pid (some a) reason now).1.isOk = true ∧
    (refund_payment st pid (some a) reason now).2.payments =
      updatePayment st.payments pid
        { p with status := PaymentStatus.REFUNDED, updated_at := now,
                 gateway_response := some ("Refund: " ++ reason) } ∧
    ({ p with status := PaymentStatus.REFUNDED, updated_at := now,
              gateway_response := some ("Refund: " ++ reason)} : Payment).amount =
      p.amount ∧
    (refund_payment st pid (some a) reason now).2.transactions =
      st.transactions ++
        [{ transaction_log_id := st.nextTxnLogId, payment_id := pid,
           transaction_type := TransactionType.REFUND, amount := a,
           status := PaymentStatus.REFUNDED,
           description := "Refund of " ++ toString a ++ " " ++ p.currency ++
             ": " ++ reason,
           created_at := now }] ∧
    (refund_payment st pid (some a) reason now).2.metrics.total_refunds =
      st.metrics.total_refunds + a ∧
    (refund_payment st pid (some a) reason now).2.metrics.refunds_processed_total =
      st.metrics.refunds_processed_total + 1 ∧
    (∀ a2 r2 n2,
      (refund_payment (refund_payment st pid (some a) reason now).2 pid a2 r2
        n2).1.isOk = false ∧
      (refund_payment (refund_payment st pid (some a) reason now).2 pid a2 r2
        n2).2 = (refund_payment st pid (some a) reason now).2) := by
  have h0 : 0 < a := by
    simp [validRefundRequest] at hval
    exact hval.1
  have hpid : p.payment_id = pid := find?_some_pid st.payments pid p hfind
  have hfu : (updatePayment st.payments pid
      { p with status := PaymentStatus.REFUNDED, updated_at := now,
               gateway_response := some ("Refund: " ++ reason) }).find?
        (fun q => q.payment_id = pid) =
      some { p with status := PaymentStatus.REFUNDED, updated_at := now,
                    gateway_response := some ("Refund: " ++ reason) } :=
    find?_updatePayment st.payments pid p _ hfind (by simpa using hpid)
  simp only [refund_payment, hval, hfind]
  rw [if_neg (by simp), if_neg (by simp [hcomp])]
  rw [show (if a = 0 then p.amount else a) = a from if_neg (by positivity)]
  rw [if_neg (not_lt.mpr (le_of_lt hlt))]
  refine ⟨rfl, rfl, by trivial, rfl, rfl, rfl, ?_⟩
  intro a2 r2 n2
  by_cases hv2 : validRefundRequest a2 r2 = true
  · simp only [refund_payment, hv2, findPayment, log_transaction]
    simp only [hfu]
    simp [ApiResult.isOk]
  · simp only [refund_payment]
    rw [if_pos (by simp [hv2])]
    simp [ApiResult.isOk]

/-- C10 witness: a 50 partial refund of the COMPLETED 100 payment — status
flips to REFUNDED, the payment row keeps its amount, the REFUND transaction
and metrics carry 50, and a later attempt to refund the remainder fails. -/
theorem partial_refund_frame_witness :
    (refund_payment (sampleState PaymentStatus.COMPLETED) 1 (some 50)
        "customer request" 5).1.isOk = true ∧
    (refund_payment (sampleState PaymentStatus.COMPLETED) 1 (some 50)
        "customer request" 5).2.payments =
      updatePayment (sampleState PaymentStatus.COMPLETED).payments 1
        { samplePayment PaymentStatus.COMPLETED with
            status := PaymentStatus.REFUNDED, updated_at := 5,
            gateway_response := some ("Refund: " ++ "customer request") } ∧
    ({ samplePayment PaymentStatus.COMPLETED with
        status := PaymentStatus.REFUNDED, updated_at := 5,
        gateway_response := some ("Refund: " ++ "customer request") } : Payment).amount =
      (samplePayment PaymentStatus.COMPLETED).amount ∧
    (refund_payment (sampleState PaymentStatus.COMPLETED) 1 (some 50)
        "customer request" 5).2.metrics.total_refunds =
      (sampleState PaymentStatus.COMPLETED).metrics.total_refunds + 50 ∧
    (refund_payment (refund_payment (sampleState PaymentStatus.COMPLETED) 1
        (some 50) "customer request" 5).2 1 (some 50) "rest please" 9).1.isOk =
      false := by
  have h := partial_refund_frame (sampleState PaymentStatus.COMPLETED) 1
    (samplePayment PaymentStatus.COMPLETED) 50 "customer request" 5
    (by decide) rfl rfl (by decide)
  exact ⟨h.1, h.2.1, h.2.2.1, h.2.2.2.2.1,
    (h.2.2.2.2.2.2 (some 50) "rest please" 9).1⟩

end PaymentSvc
